import Mathlib

/-!
Verification of the drawer state machine and registration flow of the
chat widget.

The embedding follows two source files:

* the drawer context (`DrawerProvider` with `openDrawer`, `closeDrawer`,
  `toggleDrawer`, the auto-close effect and the success-reset effect);
* the chat input controller (`safeToggleDrawer`, the cooldown effect,
  `checkForRegistrationIntent`, `handleEmailSubmit`).

Time is modelled in milliseconds as `Nat`.  `setTimeout` calls become
recorded deadlines; a `tick` event advances the clock and fires every
deadline that has come due.  React effect semantics (run on mount and
whenever a dependency changes, with cleanup cancelling a pending timer)
are modelled by re-synchronising the effect-owned deadlines after every
state transition (`postRender`): a deadline is kept while its arming
condition stays true, armed when the condition becomes true, and
dropped as soon as the condition turns false.
-/

/-- Chat transport status, as received by `DrawerProvider` and `ChatInput`. -/
inductive ChatStatus where
  | ready
  | streaming
  | submitted
  | error
deriving DecidableEq, Repr

/-- One chat message, as read by the intent-detection effect. -/
structure Message where
  role : String
  content : String
deriving DecidableEq, Repr

/-- Combined state of the drawer provider and the chat-input controller.

Fields `isOpen`, `isWaitingForEmail`, `isAutomaticOpen`,
`registrationSuccess` and `lastCloseTime` mirror the `useState` and
`useRef` cells of the provider; `autoCloseDeadline`, `successResetDeadline`
and `reassertDeadline` record the pending `setTimeout`s of the provider;
`cooldown` and `cooldownDeadlines` mirror the `cooldownRef` of the
controller and its pending 10-second `setTimeout`s (which are never
cancelled, hence a list); `input` is the chat input text and
`sentMessages` records the calls made to the external `handleSubmit`. -/
structure Sys where
  now : Nat
  chatStatus : ChatStatus
  isOpen : Bool
  isWaitingForEmail : Bool
  isAutomaticOpen : Bool
  registrationSuccess : Bool
  lastCloseTime : Nat
  autoCloseDeadline : Option Nat
  successResetDeadline : Option Nat
  reassertDeadline : Option Nat
  cooldown : Bool
  cooldownDeadlines : List Nat
  input : String
  sentMessages : List String
deriving DecidableEq, Repr

/-- Source: `const isAIWriting = chatStatus === "streaming" || chatStatus === "submitted"`. -/
def isAIWriting (s : Sys) : Bool :=
  s.chatStatus = ChatStatus.streaming || s.chatStatus = ChatStatus.submitted

/-- Source: `openDrawer` in the drawer context.  Returns early when the
time since the last close is below 2000 ms, then opens only when the AI
is not writing, recording whether the open was automatic. -/
def openDrawer (isAutomatic : Bool) (s : Sys) : Sys :=
  let timeSinceClose := s.now - s.lastCloseTime
  if timeSinceClose < 2000 then s
  else if isAIWriting s then s
  else { s with isOpen := true, isAutomaticOpen := isAutomatic }

/-- Source: `closeDrawer` in the drawer context.  Records the close
time, forces `isOpen`, `isAutomaticOpen` and `isWaitingForEmail` to
false, and schedules the secondary force close 50 ms later. -/
def closeDrawer (s : Sys) : Sys :=
  { s with lastCloseTime := s.now
         , isOpen := false
         , isAutomaticOpen := false
         , isWaitingForEmail := false
         , reassertDeadline := some (s.now + 50) }

/-- Source: `toggleDrawer` in the drawer context. -/
def toggleDrawer (s : Sys) : Sys :=
  if !(isAIWriting s) then
    if !s.isOpen then openDrawer false s else closeDrawer s
  else if s.isOpen then closeDrawer s
  else s

/-- Auto-close effect of the provider (deps `[isOpen, isAutomaticOpen]`):
while `isOpen && isAutomaticOpen` holds a pending 8000 ms timeout exists
that will set `isOpen` and `isAutomaticOpen` to false; the cleanup
cancels it as soon as either dependency changes. -/
def syncAutoClose (s : Sys) : Sys :=
  if s.isOpen && s.isAutomaticOpen then
    match s.autoCloseDeadline with
    | some _ => s
    | none => { s with autoCloseDeadline := some (s.now + 8000) }
  else { s with autoCloseDeadline := none }

/-- Success-reset effect of the provider (deps `[isOpen,
registrationSuccess]`): while `!isOpen && registrationSuccess` holds a
pending 500 ms timeout exists that will reset `registrationSuccess`;
the cleanup cancels it when a dependency changes. -/
def syncSuccessReset (s : Sys) : Sys :=
  if !s.isOpen && s.registrationSuccess then
    match s.successResetDeadline with
    | some _ => s
    | none => { s with successResetDeadline := some (s.now + 500) }
  else { s with successResetDeadline := none }

/-- Both provider effects, in declaration order. -/
def syncEffects (s : Sys) : Sys :=
  syncSuccessReset (syncAutoClose s)

/-- Body of the cooldown effect of the controller: `cooldownRef.current =
true` plus a 10 s timeout that will clear it.  The timeout is never
cancelled, so deadlines accumulate. -/
def armCooldown (s : Sys) : Sys :=
  { s with cooldown := true
         , cooldownDeadlines := s.cooldownDeadlines ++ [s.now + 10000] }

/-- Effect synchronisation after a state transition from `old`: the
provider effects re-run when their deps changed, and the cooldown
effect of the controller (dep `[isOpen]`) runs its body when `isOpen` has just
turned false. -/
def postRender (old s : Sys) : Sys :=
  if old.isOpen && !(syncEffects s).isOpen then armCooldown (syncEffects s)
  else syncEffects s

/-- Fire every due 10 s cooldown timeout: each sets `cooldownRef` to
false and is consumed. -/
def fireCooldowns (s : Sys) : Sys :=
  if s.cooldownDeadlines.any (fun d => decide (d ≤ s.now)) then
    { s with cooldown := false
           , cooldownDeadlines := s.cooldownDeadlines.filter (fun d => decide (s.now < d)) }
  else s

/-- Fire a due auto-close timeout: the callback runs `setIsOpen(false);
setIsAutomaticOpen(false)` (it does not call `closeDrawer`), then the
effects re-run. -/
def fireAutoClose (s : Sys) : Sys :=
  match s.autoCloseDeadline with
  | some d =>
    if d ≤ s.now then
      postRender s { s with isOpen := false, isAutomaticOpen := false, autoCloseDeadline := none }
    else s
  | none => s

/-- Fire a due success-reset timeout: `setRegistrationSuccess(false)`. -/
def fireSuccessReset (s : Sys) : Sys :=
  match s.successResetDeadline with
  | some d =>
    if d ≤ s.now then
      postRender s { s with registrationSuccess := false, successResetDeadline := none }
    else s
  | none => s

/-- Fire a due secondary force close from `closeDrawer`: `setIsOpen(false)`. -/
def fireReassert (s : Sys) : Sys :=
  match s.reassertDeadline with
  | some d =>
    if d ≤ s.now then
      postRender s { s with isOpen := false, reassertDeadline := none }
    else s
  | none => s

/-- Advance the clock by `dt` milliseconds and fire every timeout that
has come due.  A freshly armed deadline is always strictly in the
future, so one pass over the four timer kinds fires everything due. -/
def tick (dt : Nat) (s : Sys) : Sys :=
  fireReassert (fireSuccessReset (fireAutoClose (fireCooldowns { s with now := s.now + dt })))

/-- Source: `safeToggleDrawer` in the chat input.  Toggles only when the
AI is not writing and arms the 10 s cooldown when this toggle opens the
drawer (the captured `isOpen` is the pre-toggle value). -/
def safeToggleDrawer (s : Sys) : Sys :=
  if !(isAIWriting s) then
    let s1 := toggleDrawer s
    if !s.isOpen then
      { s1 with cooldown := true
              , cooldownDeadlines := s1.cooldownDeadlines ++ [s.now + 10000] }
    else s1
  else s

/-- Substring containment, the model of JavaScript
`content.includes(keyword)`: some suffix of `s` starts with `pat`. -/
def containsSubstr (s pat : String) : Bool :=
  (List.range (s.data.length + 1)).any (fun i => pat.data.isPrefixOf (s.data.drop i))

/-- Character-wise lower-casing, the model of JavaScript
`content.toLowerCase()` on the keyword alphabet. -/
def toLowerCase (str : String) : String :=
  String.mk (str.data.map Char.toLower)

/-- Source: the `registrationKeywords` array of `checkForRegistrationIntent`. -/
def registrationKeywords : List String :=
  ["register", "signup", "sign up", "subscribe", "account",
   "create account", "inscrire", "m\x27inscrire", "inscription"]

/-- Keyword test of `checkForRegistrationIntent`: lower-case the content
and test substring containment against the fixed keyword set. -/
def hasIntent (content : String) : Bool :=
  registrationKeywords.any (fun keyword => containsSubstr (toLowerCase content) keyword)

/-- Source: `checkForRegistrationIntent` in the chat input.  Skips under
cooldown or when the drawer is open, inspects only the last message and
only when its role is `"user"`, and on a keyword match with the AI idle
and the drawer closed calls `openDrawer(true)`. -/
def checkForRegistrationIntent (messages : List Message) (s : Sys) : Sys :=
  if s.cooldown || s.isOpen then s
  else
    match messages.getLast? with
    | none => s
    | some lastMessage =>
      if lastMessage.role = "user" then
        if hasIntent lastMessage.content && !(isAIWriting s) && !s.isOpen then
          openDrawer true s
        else s
      else s

/-- The effect wrapping `checkForRegistrationIntent`: the check runs
only when `status === "ready" || status === "error"`. -/
def intentEffect (messages : List Message) (s : Sys) : Sys :=
  if s.chatStatus = ChatStatus.ready ∨ s.chatStatus = ChatStatus.error then
    checkForRegistrationIntent messages s
  else s

/-- Character class `[^\s@]` of the email regular expression. -/
def isEmailAtomChar (c : Char) : Bool :=
  !c.isWhitespace && c != '@'

/-- Semantics of the source regular expression
`/^[^\s@]+@[^\s@]+\.[^\s@]+$/`: the whole string splits as a non-empty
run of `[^\s@]` characters, an `@`, and a domain that itself splits as
a non-empty run, a dot, and a non-empty run of `[^\s@]` characters. -/
def matchesEmailRegex (str : String) : Bool :=
  let cs := str.toList
  (List.range cs.length).any (fun i =>
    cs.getD i ' ' == '@' &&
    !(cs.take i).isEmpty && (cs.take i).all isEmailAtomChar &&
    ((cs.drop (i+1)).all isEmailAtomChar &&
      (List.range (cs.drop (i+1)).length).any (fun j =>
        (cs.drop (i+1)).getD j ' ' == '.' &&
        !((cs.drop (i+1)).take j).isEmpty &&
        !((cs.drop (i+1)).drop (j+1)).isEmpty)))

/-- The external chat submission `handleSubmit(e)`: the current input is
sent as a chat message. -/
def handleSubmit (s : Sys) : Sys :=
  { s with sentMessages := s.sentMessages ++ [s.input] }

/-- Source: `handleEmailSubmit` in the chat input.  When waiting for an
email and the input matches the email regex, try to persist the email:
on success set the success flag, close the drawer, clear the waiting
flag and the input, arm the cooldown, and return without submitting; on
failure fall through (after logging) to `handleSubmit`, as does any
non-matching or non-waiting submission. -/
def handleEmailSubmit (persistOk : Bool) (s : Sys) : Sys :=
  if s.isWaitingForEmail then
    if matchesEmailRegex s.input then
      if persistOk then
        let s1 := { s with registrationSuccess := true }
        let s2 := closeDrawer s1
        let s3 := { s2 with isWaitingForEmail := false, input := "" }
        { s3 with cooldown := true
                , cooldownDeadlines := s3.cooldownDeadlines ++ [s3.now + 10000] }
      else handleSubmit s
    else handleSubmit s
  else handleSubmit s

/-- Events of the combined system: the drawer operations, the
controller entry points, external status/input changes, and the
passage of time. -/
inductive Event where
  | eOpen (isAutomatic : Bool)
  | eClose
  | eToggle
  | eSafeToggle
  | eSetWaiting (v : Bool)
  | eSetSuccess (v : Bool)
  | eSetStatus (st : ChatStatus)
  | eSetInput (text : String)
  | eIntent (messages : List Message)
  | eEmailSubmit (persistOk : Bool)
  | eTick (dt : Nat)
deriving Repr

/-- One transition: apply the handler of the event, then re-synchronise the
effects. -/
def step (s : Sys) : Event → Sys
  | Event.eOpen a => postRender s (openDrawer a s)
  | Event.eClose => postRender s (closeDrawer s)
  | Event.eToggle => postRender s (toggleDrawer s)
  | Event.eSafeToggle => postRender s (safeToggleDrawer s)
  | Event.eSetWaiting v => postRender s { s with isWaitingForEmail := v }
  | Event.eSetSuccess v => postRender s { s with registrationSuccess := v }
  | Event.eSetStatus st => postRender s { s with chatStatus := st }
  | Event.eSetInput t => { s with input := t }
  | Event.eIntent msgs => postRender s (intentEffect msgs s)
  | Event.eEmailSubmit ok => postRender s (handleEmailSubmit ok s)
  | Event.eTick dt => tick dt s

/-- State at mount time `t0`, before the mount effects run: drawer
closed, both sub-modes false, `lastCloseTimeRef` initialised to 0, no
pending timers, status `ready`. -/
def initBase (t0 : Nat) : Sys :=
  { now := t0
  , chatStatus := ChatStatus.ready
  , isOpen := false
  , isWaitingForEmail := false
  , isAutomaticOpen := false
  , registrationSuccess := false
  , lastCloseTime := 0
  , autoCloseDeadline := none
  , successResetDeadline := none
  , reassertDeadline := none
  , cooldown := false
  , cooldownDeadlines := []
  , input := ""
  , sentMessages := [] }

/-- State after mount: all effects run once; the cooldown
effect of the controller sees `isOpen = false` and arms the 10 s cooldown. -/
def init (t0 : Nat) : Sys :=
  armCooldown (syncEffects (initBase t0))

/-- Run an event sequence from the mounted initial state. -/
def run (t0 : Nat) (es : List Event) : Sys :=
  es.foldl step (init t0)

/-! ## Field-preservation lemmas -/

@[simp] lemma syncAutoClose_fields (s : Sys) :
    (syncAutoClose s).now = s.now ∧
    (syncAutoClose s).chatStatus = s.chatStatus ∧
    (syncAutoClose s).isOpen = s.isOpen ∧
    (syncAutoClose s).isWaitingForEmail = s.isWaitingForEmail ∧
    (syncAutoClose s).isAutomaticOpen = s.isAutomaticOpen ∧
    (syncAutoClose s).registrationSuccess = s.registrationSuccess ∧
    (syncAutoClose s).lastCloseTime = s.lastCloseTime ∧
    (syncAutoClose s).successResetDeadline = s.successResetDeadline ∧
    (syncAutoClose s).reassertDeadline = s.reassertDeadline ∧
    (syncAutoClose s).cooldown = s.cooldown ∧
    (syncAutoClose s).cooldownDeadlines = s.cooldownDeadlines ∧
    (syncAutoClose s).input = s.input ∧
    (syncAutoClose s).sentMessages = s.sentMessages := by
  unfold syncAutoClose
  split <;> (try split) <;> simp

@[simp] lemma syncSuccessReset_fields (s : Sys) :
    (syncSuccessReset s).now = s.now ∧
    (syncSuccessReset s).chatStatus = s.chatStatus ∧
    (syncSuccessReset s).isOpen = s.isOpen ∧
    (syncSuccessReset s).isWaitingForEmail = s.isWaitingForEmail ∧
    (syncSuccessReset s).isAutomaticOpen = s.isAutomaticOpen ∧
    (syncSuccessReset s).registrationSuccess = s.registrationSuccess ∧
    (syncSuccessReset s).lastCloseTime = s.lastCloseTime ∧
    (syncSuccessReset s).autoCloseDeadline = s.autoCloseDeadline ∧
    (syncSuccessReset s).reassertDeadline = s.reassertDeadline ∧
    (syncSuccessReset s).cooldown = s.cooldown ∧
    (syncSuccessReset s).cooldownDeadlines = s.cooldownDeadlines ∧
    (syncSuccessReset s).input = s.input ∧
    (syncSuccessReset s).sentMessages = s.sentMessages := by
  unfold syncSuccessReset
  split <;> (try split) <;> simp

@[simp] lemma armCooldown_fields (s : Sys) :
    (armCooldown s).now = s.now ∧
    (armCooldown s).chatStatus = s.chatStatus ∧
    (armCooldown s).isOpen = s.isOpen ∧
    (armCooldown s).isWaitingForEmail = s.isWaitingForEmail ∧
    (armCooldown s).isAutomaticOpen = s.isAutomaticOpen ∧
    (armCooldown s).registrationSuccess = s.registrationSuccess ∧
    (armCooldown s).lastCloseTime = s.lastCloseTime ∧
    (armCooldown s).autoCloseDeadline = s.autoCloseDeadline ∧
    (armCooldown s).successResetDeadline = s.successResetDeadline ∧
    (armCooldown s).reassertDeadline = s.reassertDeadline ∧
    (armCooldown s).cooldown = true ∧
    (armCooldown s).input = s.input ∧
    (armCooldown s).sentMessages = s.sentMessages := by
  unfold armCooldown
  simp

@[simp] lemma postRender_fields (old s : Sys) :
    (postRender old s).now = s.now ∧
    (postRender old s).chatStatus = s.chatStatus ∧
    (postRender old s).isOpen = s.isOpen ∧
    (postRender old s).isWaitingForEmail = s.isWaitingForEmail ∧
    (postRender old s).isAutomaticOpen = s.isAutomaticOpen ∧
    (postRender old s).registrationSuccess = s.registrationSuccess ∧
    (postRender old s).lastCloseTime = s.lastCloseTime ∧
    (postRender old s).reassertDeadline = s.reassertDeadline ∧
    (postRender old s).input = s.input ∧
    (postRender old s).sentMessages = s.sentMessages := by
  unfold postRender
  split <;> simp [syncEffects]

@[simp] lemma openDrawer_fields (a : Bool) (s : Sys) :
    (openDrawer a s).now = s.now ∧
    (openDrawer a s).chatStatus = s.chatStatus ∧
    (openDrawer a s).isWaitingForEmail = s.isWaitingForEmail ∧
    (openDrawer a s).registrationSuccess = s.registrationSuccess ∧
    (openDrawer a s).lastCloseTime = s.lastCloseTime ∧
    (openDrawer a s).autoCloseDeadline = s.autoCloseDeadline ∧
    (openDrawer a s).successResetDeadline = s.successResetDeadline ∧
    (openDrawer a s).reassertDeadline = s.reassertDeadline ∧
    (openDrawer a s).cooldown = s.cooldown ∧
    (openDrawer a s).cooldownDeadlines = s.cooldownDeadlines ∧
    (openDrawer a s).input = s.input ∧
    (openDrawer a s).sentMessages = s.sentMessages := by
  simp only [openDrawer]
  split_ifs <;> simp

@[simp] lemma toggleDrawer_fields (s : Sys) :
    (toggleDrawer s).now = s.now ∧
    (toggleDrawer s).chatStatus = s.chatStatus ∧
    (toggleDrawer s).registrationSuccess = s.registrationSuccess ∧
    (toggleDrawer s).autoCloseDeadline = s.autoCloseDeadline ∧
    (toggleDrawer s).successResetDeadline = s.successResetDeadline ∧
    (toggleDrawer s).cooldown = s.cooldown ∧
    (toggleDrawer s).cooldownDeadlines = s.cooldownDeadlines ∧
    (toggleDrawer s).input = s.input ∧
    (toggleDrawer s).sentMessages = s.sentMessages := by
  unfold toggleDrawer
  split_ifs <;> simp [closeDrawer, openDrawer_fields]

@[simp] lemma fireCooldowns_fields (s : Sys) :
    (fireCooldowns s).now = s.now ∧
    (fireCooldowns s).chatStatus = s.chatStatus ∧
    (fireCooldowns s).isOpen = s.isOpen ∧
    (fireCooldowns s).isWaitingForEmail = s.isWaitingForEmail ∧
    (fireCooldowns s).isAutomaticOpen = s.isAutomaticOpen ∧
    (fireCooldowns s).registrationSuccess = s.registrationSuccess ∧
    (fireCooldowns s).lastCloseTime = s.lastCloseTime ∧
    (fireCooldowns s).autoCloseDeadline = s.autoCloseDeadline ∧
    (fireCooldowns s).successResetDeadline = s.successResetDeadline ∧
    (fireCooldowns s).reassertDeadline = s.reassertDeadline ∧
    (fireCooldowns s).input = s.input ∧
    (fireCooldowns s).sentMessages = s.sentMessages := by
  unfold fireCooldowns
  split <;> simp

@[simp] lemma fireAutoClose_fields (s : Sys) :
    (fireAutoClose s).now = s.now ∧
    (fireAutoClose s).chatStatus = s.chatStatus ∧
    (fireAutoClose s).isWaitingForEmail = s.isWaitingForEmail ∧
    (fireAutoClose s).registrationSuccess = s.registrationSuccess ∧
    (fireAutoClose s).lastCloseTime = s.lastCloseTime ∧
    (fireAutoClose s).reassertDeadline = s.reassertDeadline ∧
    (fireAutoClose s).input = s.input ∧
    (fireAutoClose s).sentMessages = s.sentMessages := by
  unfold fireAutoClose
  split <;> (try split) <;> simp

@[simp] lemma fireSuccessReset_fields (s : Sys) :
    (fireSuccessReset s).now = s.now ∧
    (fireSuccessReset s).chatStatus = s.chatStatus ∧
    (fireSuccessReset s).isOpen = s.isOpen ∧
    (fireSuccessReset s).isWaitingForEmail = s.isWaitingForEmail ∧
    (fireSuccessReset s).isAutomaticOpen = s.isAutomaticOpen ∧
    (fireSuccessReset s).lastCloseTime = s.lastCloseTime ∧
    (fireSuccessReset s).reassertDeadline = s.reassertDeadline ∧
    (fireSuccessReset s).input = s.input ∧
    (fireSuccessReset s).sentMessages = s.sentMessages := by
  unfold fireSuccessReset
  split <;> (try split) <;> simp

@[simp] lemma fireReassert_fields (s : Sys) :
    (fireReassert s).now = s.now ∧
    (fireReassert s).chatStatus = s.chatStatus ∧
    (fireReassert s).isWaitingForEmail = s.isWaitingForEmail ∧
    (fireReassert s).isAutomaticOpen = s.isAutomaticOpen ∧
    (fireReassert s).registrationSuccess = s.registrationSuccess ∧
    (fireReassert s).lastCloseTime = s.lastCloseTime ∧
    (fireReassert s).input = s.input ∧
    (fireReassert s).sentMessages = s.sentMessages := by
  unfold fireReassert
  split <;> (try split) <;> simp

@[simp] lemma tick_fields (dt : Nat) (s : Sys) :
    (tick dt s).now = s.now + dt ∧
    (tick dt s).chatStatus = s.chatStatus ∧
    (tick dt s).isWaitingForEmail = s.isWaitingForEmail ∧
    (tick dt s).lastCloseTime = s.lastCloseTime ∧
    (tick dt s).input = s.input ∧
    (tick dt s).sentMessages = s.sentMessages := by
  unfold tick
  simp

@[simp] lemma checkForRegistrationIntent_fields (msgs : List Message) (s : Sys) :
    (checkForRegistrationIntent msgs s).now = s.now ∧
    (checkForRegistrationIntent msgs s).chatStatus = s.chatStatus ∧
    (checkForRegistrationIntent msgs s).isWaitingForEmail = s.isWaitingForEmail ∧
    (checkForRegistrationIntent msgs s).registrationSuccess = s.registrationSuccess ∧
    (checkForRegistrationIntent msgs s).lastCloseTime = s.lastCloseTime ∧
    (checkForRegistrationIntent msgs s).autoCloseDeadline = s.autoCloseDeadline ∧
    (checkForRegistrationIntent msgs s).successResetDeadline = s.successResetDeadline ∧
    (checkForRegistrationIntent msgs s).reassertDeadline = s.reassertDeadline ∧
    (checkForRegistrationIntent msgs s).cooldown = s.cooldown ∧
    (checkForRegistrationIntent msgs s).cooldownDeadlines = s.cooldownDeadlines ∧
    (checkForRegistrationIntent msgs s).input = s.input ∧
    (checkForRegistrationIntent msgs s).sentMessages = s.sentMessages := by
  unfold checkForRegistrationIntent
  split <;> (try split) <;> (try split) <;> (try split) <;> simp

@[simp] lemma intentEffect_fields (msgs : List Message) (s : Sys) :
    (intentEffect msgs s).now = s.now ∧
    (intentEffect msgs s).chatStatus = s.chatStatus ∧
    (intentEffect msgs s).isWaitingForEmail = s.isWaitingForEmail ∧
    (intentEffect msgs s).registrationSuccess = s.registrationSuccess ∧
    (intentEffect msgs s).lastCloseTime = s.lastCloseTime ∧
    (intentEffect msgs s).autoCloseDeadline = s.autoCloseDeadline ∧
    (intentEffect msgs s).successResetDeadline = s.successResetDeadline ∧
    (intentEffect msgs s).reassertDeadline = s.reassertDeadline ∧
    (intentEffect msgs s).cooldown = s.cooldown ∧
    (intentEffect msgs s).cooldownDeadlines = s.cooldownDeadlines ∧
    (intentEffect msgs s).input = s.input ∧
    (intentEffect msgs s).sentMessages = s.sentMessages := by
  unfold intentEffect
  split <;> simp

@[simp] lemma safeToggleDrawer_fields (s : Sys) :
    (safeToggleDrawer s).now = s.now ∧
    (safeToggleDrawer s).chatStatus = s.chatStatus ∧
    (safeToggleDrawer s).registrationSuccess = s.registrationSuccess ∧
    (safeToggleDrawer s).autoCloseDeadline = s.autoCloseDeadline ∧
    (safeToggleDrawer s).successResetDeadline = s.successResetDeadline ∧
    (safeToggleDrawer s).input = s.input ∧
    (safeToggleDrawer s).sentMessages = s.sentMessages := by
  unfold safeToggleDrawer
  split_ifs <;> simp [toggleDrawer_fields]

/-! ## Value lemmas for the individual operations -/

lemma openDrawer_noop_of_window (a : Bool) (s : Sys)
    (h : s.now - s.lastCloseTime < 2000) : openDrawer a s = s := by
  simp only [openDrawer]
  rw [if_pos h]

lemma openDrawer_noop_of_busy (a : Bool) (s : Sys)
    (h : isAIWriting s = true) : openDrawer a s = s := by
  simp only [openDrawer]
  split_ifs with h1 <;> simp_all

lemma openDrawer_success (a : Bool) (s : Sys)
    (hb : isAIWriting s = false) (hw : 2000 ≤ s.now - s.lastCloseTime) :
    openDrawer a s = { s with isOpen := true, isAutomaticOpen := a } := by
  simp only [openDrawer]
  rw [if_neg (by omega), if_neg (by simp [hb])]

lemma fireReassert_of_none (s : Sys) (h : s.reassertDeadline = none) :
    fireReassert s = s := by
  unfold fireReassert
  rw [h]

lemma fireAutoClose_of_none (s : Sys) (h : s.autoCloseDeadline = none) :
    fireAutoClose s = s := by
  unfold fireAutoClose
  rw [h]

lemma fireAutoClose_not_due (s : Sys) (d : Nat) (h : s.autoCloseDeadline = some d)
    (hd : s.now < d) : fireAutoClose s = s := by
  unfold fireAutoClose
  rw [h]
  simp [Nat.not_le.mpr hd]

lemma fireAutoClose_due (s : Sys) (d : Nat) (h : s.autoCloseDeadline = some d)
    (hd : d ≤ s.now) :
    fireAutoClose s =
      postRender s { s with isOpen := false, isAutomaticOpen := false, autoCloseDeadline := none } := by
  unfold fireAutoClose
  rw [h]
  simp [hd]

lemma fireSuccessReset_of_none (s : Sys) (h : s.successResetDeadline = none) :
    fireSuccessReset s = s := by
  unfold fireSuccessReset
  rw [h]

lemma fireSuccessReset_not_due (s : Sys) (d : Nat) (h : s.successResetDeadline = some d)
    (hd : s.now < d) : fireSuccessReset s = s := by
  unfold fireSuccessReset
  rw [h]
  simp [Nat.not_le.mpr hd]

lemma fireSuccessReset_due (s : Sys) (d : Nat) (h : s.successResetDeadline = some d)
    (hd : d ≤ s.now) :
    fireSuccessReset s =
      postRender s { s with registrationSuccess := false, successResetDeadline := none } := by
  unfold fireSuccessReset
  rw [h]
  simp [hd]

lemma fireSuccessReset_regSuccess_false (s : Sys) (h : s.registrationSuccess = false) :
    (fireSuccessReset s).registrationSuccess = false := by
  unfold fireSuccessReset
  split <;> (try split) <;> simp [h]

lemma postRender_cooldown_of_true (old s : Sys) (h : s.cooldown = true) :
    (postRender old s).cooldown = true := by
  unfold postRender
  split <;> simp [syncEffects, h]

lemma postRender_cooldown_same (old s : Sys) (h : s.isOpen = old.isOpen) :
    (postRender old s).cooldown = s.cooldown := by
  unfold postRender
  split
  next hc =>
    exfalso
    have hs : (syncEffects s).isOpen = s.isOpen := by simp [syncEffects]
    rw [hs, h] at hc
    rcases old.isOpen <;> simp_all
  next hc => simp [syncEffects]

lemma syncAutoClose_arm (s : Sys) (ho : s.isOpen = true) (ha : s.isAutomaticOpen = true)
    (hn : s.autoCloseDeadline = none) :
    syncAutoClose s = { s with autoCloseDeadline := some (s.now + 8000) } := by
  unfold syncAutoClose
  rw [hn]
  simp [ho, ha]

lemma syncAutoClose_keep (s : Sys) (d : Nat) (ho : s.isOpen = true)
    (ha : s.isAutomaticOpen = true) (hn : s.autoCloseDeadline = some d) :
    syncAutoClose s = s := by
  unfold syncAutoClose
  rw [hn]
  simp [ho, ha]

lemma syncAutoClose_cancel (s : Sys) (h : s.isOpen = false ∨ s.isAutomaticOpen = false) :
    (syncAutoClose s).autoCloseDeadline = none := by
  unfold syncAutoClose
  rcases h with h | h <;> simp [h]

lemma syncSuccessReset_arm (s : Sys) (ho : s.isOpen = false) (hr : s.registrationSuccess = true)
    (hn : s.successResetDeadline = none) :
    syncSuccessReset s = { s with successResetDeadline := some (s.now + 500) } := by
  unfold syncSuccessReset
  rw [hn]
  simp [ho, hr]

lemma syncSuccessReset_keep (s : Sys) (d : Nat) (ho : s.isOpen = false)
    (hr : s.registrationSuccess = true) (hn : s.successResetDeadline = some d) :
    syncSuccessReset s = s := by
  unfold syncSuccessReset
  rw [hn]
  simp [ho, hr]

lemma syncSuccessReset_cancel (s : Sys) (h : s.isOpen = true ∨ s.registrationSuccess = false) :
    (syncSuccessReset s).successResetDeadline = none := by
  unfold syncSuccessReset
  rcases h with h | h <;> simp [h]

lemma syncAutoClose_eq_cancel (s : Sys) (h : s.isOpen = false ∨ s.isAutomaticOpen = false) :
    syncAutoClose s = { s with autoCloseDeadline := none } := by
  unfold syncAutoClose
  rcases h with h | h <;> simp [h]

lemma syncSuccessReset_of_open (s : Sys) (h : s.isOpen = true) :
    syncSuccessReset s = { s with successResetDeadline := none } := by
  unfold syncSuccessReset
  simp [h]

lemma syncSuccessReset_eq_cancel (s : Sys) (h : s.isOpen = true ∨ s.registrationSuccess = false) :
    syncSuccessReset s = { s with successResetDeadline := none } := by
  unfold syncSuccessReset
  rcases h with h | h <;> simp [h]

@[simp] lemma postRender_autoClose (old s : Sys) :
    (postRender old s).autoCloseDeadline = (syncAutoClose s).autoCloseDeadline := by
  unfold postRender
  split <;> simp [syncEffects]

@[simp] lemma postRender_successReset (old s : Sys) :
    (postRender old s).successResetDeadline =
      (syncSuccessReset (syncAutoClose s)).successResetDeadline := by
  unfold postRender
  split <;> simp [syncEffects]

/-! ## Claim C2 -/

/-- C2: for every state and every requested origin, `open(origin)` is a
no-op when the assistant is busy (status streaming or submitted) or when
less than 2000 ms have passed since the last close; otherwise it sets
`isOpen` to true and the origin flag to the requested origin. -/
theorem drawer_C2_open_guard (s : Sys) (a : Bool) :
    ((isAIWriting s = true ∨ s.now - s.lastCloseTime < 2000) → openDrawer a s = s) ∧
    (isAIWriting s = false → 2000 ≤ s.now - s.lastCloseTime →
      openDrawer a s = { s with isOpen := true, isAutomaticOpen := a }) := by
  refine ⟨?_, openDrawer_success a s⟩
  rintro (h | h)
  · exact openDrawer_noop_of_busy a s h
  · exact openDrawer_noop_of_window a s h

/-- Witness for C2 at a concrete state: an idle open at mount time
succeeds, a busy open is the identity. -/
theorem drawer_C2_open_guard_witness :
    openDrawer true (init 100000) =
      { (init 100000) with isOpen := true, isAutomaticOpen := true } ∧
    openDrawer true { (init 100000) with chatStatus := ChatStatus.streaming } =
      { (init 100000) with chatStatus := ChatStatus.streaming } := by
  constructor
  · exact (drawer_C2_open_guard (init 100000) true).2 (by decide) (by decide)
  · exact (drawer_C2_open_guard _ true).1 (Or.inl (by decide))

/-! ## Claim C5 -/

/-- C5: in every state, `close()` sets `isOpen` to false, the automatic
flag (origin) to none, `isWaitingForEmail` to false, records
`lastCloseTimestamp` as the current time, cancels any pending auto-close
timer, and schedules a re-assert of `isOpen = false` 50 ms later; firing
that re-assert leaves `isOpen` false (idempotent).  In particular
`isWaitingForEmail` is false immediately after `close()`. -/
theorem drawer_C5_close (s : Sys) :
    (step s Event.eClose).isOpen = false ∧
    (step s Event.eClose).isAutomaticOpen = false ∧
    (step s Event.eClose).isWaitingForEmail = false ∧
    (step s Event.eClose).lastCloseTime = s.now ∧
    (step s Event.eClose).autoCloseDeadline = none ∧
    (step s Event.eClose).reassertDeadline = some (s.now + 50) ∧
    (fireReassert { (step s Event.eClose) with now := s.now + 50 }).isOpen = false := by
  have hstep : step s Event.eClose = postRender s (closeDrawer s) := rfl
  have h5 : (step s Event.eClose).autoCloseDeadline = none := by
    rw [hstep, postRender_autoClose]
    exact syncAutoClose_cancel _ (Or.inl rfl)
  have h6 : (step s Event.eClose).reassertDeadline = some (s.now + 50) := by
    rw [hstep]
    simp [closeDrawer]
  refine ⟨by rw [hstep]; simp [closeDrawer],
          by rw [hstep]; simp [closeDrawer],
          by rw [hstep]; simp [closeDrawer],
          by rw [hstep]; simp [closeDrawer],
          h5, h6, ?_⟩
  unfold fireReassert
  simp only [h6]
  simp

/-! ## Claim C4 -/

/-- C4 counterexample: from the mounted initial state (mount time
100000, last close time 0) an `open(automatic)` call succeeds; a second
`open(manual)` call issued only 100 ms later is not a no-op: it
overwrites the origin flag from automatic to manual, because the 2000 ms
suppression window is measured from the last close, not from the open. -/
theorem drawer_C4_counterexample :
    (run 100000 [Event.eOpen true]).isOpen = true ∧
    (run 100000 [Event.eOpen true]).isAutomaticOpen = true ∧
    (run 100000 [Event.eOpen true, Event.eTick 100, Event.eOpen false]).isOpen = true ∧
    (run 100000 [Event.eOpen true, Event.eTick 100, Event.eOpen false]).isAutomaticOpen = false := by
  decide

/-- C4 amended: the suppression window of `open` is measured from the
last close.  An open call issued less than 2000 ms after the last close
is a no-op; after a successful `open(automatic)`, a further open call of
any origin issued dt ms later (any dt, with no close in between and the
assistant idle) is not suppressed: it succeeds and overwrites the origin
flag with the newly requested origin. -/
theorem drawer_C4_amended (s : Sys) (a b : Bool) (dt : Nat)
    (hb : isAIWriting s = false) (hw : 2000 ≤ s.now - s.lastCloseTime) :
    (openDrawer a s).isOpen = true ∧
    (openDrawer a s).isAutomaticOpen = a ∧
    openDrawer b { (openDrawer a s) with now := (openDrawer a s).now + dt } =
      { { (openDrawer a s) with now := (openDrawer a s).now + dt } with
          isOpen := true, isAutomaticOpen := b } ∧
    (∀ s2 : Sys, s2.now - s2.lastCloseTime < 2000 → openDrawer b s2 = s2) := by
  have h1 := openDrawer_success a s hb hw
  refine ⟨by rw [h1], by rw [h1], ?_, fun s2 h => openDrawer_noop_of_window b s2 h⟩
  apply openDrawer_success
  · simpa [isAIWriting, h1] using hb
  · simp [h1]
    omega

/-- Witness for C4 amended: concrete instance at the mounted initial
state with a manual re-open 100 ms after a successful automatic open. -/
theorem drawer_C4_amended_witness :
    (openDrawer false
      { (openDrawer true (init 100000)) with
          now := (openDrawer true (init 100000)).now + 100 }).isOpen = true ∧
    (openDrawer false
      { (openDrawer true (init 100000)) with
          now := (openDrawer true (init 100000)).now + 100 }).isAutomaticOpen = false := by
  have h := (drawer_C4_amended (init 100000) true false 100 (by decide) (by decide)).2.2.1
  rw [h]
  exact ⟨rfl, rfl⟩

/-! ## Tick behaviour of the auto-close timer -/

lemma tick_autoClose_due (s0 : Sys) (dt : Nat)
    (hD : s0.autoCloseDeadline = some (s0.now + dt))
    (hre : s0.reassertDeadline = none) :
    (tick dt s0).isOpen = false ∧
    (tick dt s0).isAutomaticOpen = false ∧
    (tick dt s0).lastCloseTime = s0.lastCloseTime ∧
    (tick dt s0).isWaitingForEmail = s0.isWaitingForEmail := by
  unfold tick
  rw [fireAutoClose_due _ (s0.now + dt) (by simp [hD]) (by simp)]
  rw [fireReassert_of_none _ (by simp [hre])]
  refine ⟨by simp, by simp, by simp, by simp⟩

lemma tick_autoClose_not_due (s0 : Sys) (dt d : Nat)
    (hD : s0.autoCloseDeadline = some d) (hlt : s0.now + dt < d)
    (hsr : s0.successResetDeadline = none) (hre : s0.reassertDeadline = none) :
    (tick dt s0).isOpen = s0.isOpen := by
  unfold tick
  rw [fireAutoClose_not_due _ d (by simp [hD]) (by simp [hlt])]
  rw [fireSuccessReset_of_none _ (by simp [hsr])]
  rw [fireReassert_of_none _ (by simp [hre])]
  simp

/-! ## Claim C3 -/

/-- C3 counterexample: from the mounted initial state (mount time
100000, last close time 0), `open(automatic)` succeeds, the
email-waiting sub-mode is set, and 8000 ms pass untouched.  The drawer
does auto-close, but the auto-close did not go through `close()`:
`lastCloseTimestamp` is still 0 (not 108000) and `isWaitingForEmail` is
still true, contradicting the claim that the timer calls `close()`. -/
theorem drawer_C3_counterexample :
    (run 100000 [Event.eOpen true, Event.eSetWaiting true, Event.eTick 8000]).isOpen = false ∧
    (run 100000 [Event.eOpen true, Event.eSetWaiting true, Event.eTick 8000]).isWaitingForEmail
      = true ∧
    (run 100000 [Event.eOpen true, Event.eSetWaiting true, Event.eTick 8000]).lastCloseTime
      = 0 := by
  decide

/-- C3 amended: a successful `open(automatic)` arms a one-shot 8000 ms
auto-close timer; left untouched, the timer fires after exactly 8000 ms
and closes the drawer by directly setting `isOpen` to false and
clearing the automatic-origin flag — it does not call `close()`, so it
records no `lastCloseTimestamp` and leaves `isWaitingForEmail`
unchanged.  The timer does not fire earlier, is cancelled as soon as
the drawer is closed or the origin stops being automatic, and a manual
open never arms it. -/
theorem drawer_C3_amended (s : Sys)
    (hb : isAIWriting s = false) (hw : 2000 ≤ s.now - s.lastCloseTime)
    (hac : s.autoCloseDeadline = none) (hre : s.reassertDeadline = none) :
    (step s (Event.eOpen true)).autoCloseDeadline = some (s.now + 8000) ∧
    (step (step s (Event.eOpen true)) (Event.eTick 8000)).isOpen = false ∧
    (step (step s (Event.eOpen true)) (Event.eTick 8000)).isAutomaticOpen = false ∧
    (step (step s (Event.eOpen true)) (Event.eTick 8000)).lastCloseTime = s.lastCloseTime ∧
    (step (step s (Event.eOpen true)) (Event.eTick 8000)).isWaitingForEmail
      = s.isWaitingForEmail ∧
    (∀ dt, dt < 8000 → (step (step s (Event.eOpen true)) (Event.eTick dt)).isOpen = true) ∧
    (∀ s3 : Sys, s3.isOpen = false ∨ s3.isAutomaticOpen = false →
      (syncAutoClose s3).autoCloseDeadline = none) ∧
    (step s (Event.eOpen false)).isAutomaticOpen = false ∧
    (step s (Event.eOpen false)).autoCloseDeadline = none := by
  have hOpen : step s (Event.eOpen true) =
      { s with isOpen := true, isAutomaticOpen := true,
               autoCloseDeadline := some (s.now + 8000), successResetDeadline := none } := by
    show postRender s (openDrawer true s) = _
    rw [openDrawer_success true s hb hw]
    unfold postRender syncEffects syncAutoClose syncSuccessReset
    simp [hac]
  have hOpenF : step s (Event.eOpen false) =
      postRender s { s with isOpen := true, isAutomaticOpen := false } := by
    show postRender s (openDrawer false s) = _
    rw [openDrawer_success false s hb hw]
  have hdue := tick_autoClose_due
      { s with isOpen := true, isAutomaticOpen := true,
               autoCloseDeadline := some (s.now + 8000), successResetDeadline := none }
      8000 (by simp) (by simp [hre])
  refine ⟨by rw [hOpen], ?_, ?_, ?_, ?_, ?_,
          fun s3 h => syncAutoClose_cancel s3 h, ?_, ?_⟩
  · rw [hOpen]; exact hdue.1
  · rw [hOpen]; exact hdue.2.1
  · rw [hOpen]; exact hdue.2.2.1
  · rw [hOpen]; exact hdue.2.2.2
  · intro dt hdt
    rw [hOpen]
    show (tick dt _).isOpen = true
    rw [tick_autoClose_not_due _ dt (s.now + 8000) (by simp) (by simp; omega)
        (by simp) (by simp [hre])]
  · rw [hOpenF]; simp
  · rw [hOpenF, postRender_autoClose]
    exact syncAutoClose_cancel _ (Or.inr rfl)

/-- Witness for C3 amended at the mounted initial state. -/
theorem drawer_C3_amended_witness :
    (step (init 100000) (Event.eOpen true)).autoCloseDeadline
      = some ((init 100000).now + 8000) ∧
    (step (step (init 100000) (Event.eOpen true)) (Event.eTick 8000)).isOpen = false ∧
    (step (step (init 100000) (Event.eOpen true)) (Event.eTick 8000)).lastCloseTime
      = (init 100000).lastCloseTime := by
  have h := drawer_C3_amended (init 100000) (by decide) (by decide) (by decide) (by decide)
  exact ⟨h.1, h.2.1, h.2.2.2.1⟩

/-! ## Claim C9 -/

/-- C9: while `registrationSuccess` is true and `isOpen` is false a
500 ms reset timer is pending: it is armed when that condition becomes
true (deadline = arming time + 500 ms), kept while the condition holds,
cancelled as soon as the drawer reopens or the flag is cleared, resets
`registrationSuccess` to false when it fires, and never fires early.
End to end from the mounted initial state: set the success flag, close
the drawer; the flag is still true 499 ms later and false at 500 ms. -/
theorem drawer_C9_success_reset (s : Sys) (d : Nat) :
    (s.isOpen = false → s.registrationSuccess = true → s.successResetDeadline = none →
      (syncSuccessReset s).successResetDeadline = some (s.now + 500)) ∧
    (s.isOpen = false → s.registrationSuccess = true → s.successResetDeadline = some d →
      (syncSuccessReset s).successResetDeadline = some d) ∧
    ((s.isOpen = true ∨ s.registrationSuccess = false) →
      (syncSuccessReset s).successResetDeadline = none) ∧
    (s.successResetDeadline = some d → d ≤ s.now →
      (fireSuccessReset s).registrationSuccess = false) ∧
    (s.successResetDeadline = some d → s.now < d → fireSuccessReset s = s) ∧
    ((run 100000 [Event.eSetSuccess true, Event.eClose]).successResetDeadline
       = some 100500 ∧
     (run 100000 [Event.eSetSuccess true, Event.eClose, Event.eTick 499]).registrationSuccess
       = true ∧
     (run 100000 [Event.eSetSuccess true, Event.eClose, Event.eTick 500]).registrationSuccess
       = false) := by
  refine ⟨?_, ?_, syncSuccessReset_cancel s, ?_, fireSuccessReset_not_due s d, by decide⟩
  · intro ho hr hn
    rw [syncSuccessReset_arm s ho hr hn]
  · intro ho hr hn
    rw [syncSuccessReset_keep s d ho hr hn]
    exact hn
  · intro h hd
    rw [fireSuccessReset_due s d h hd]
    simp

/-- Witness for C9: arming at a concrete closed state with the success
flag set. -/
theorem drawer_C9_success_reset_witness :
    (syncSuccessReset
      { initBase 100000 with registrationSuccess := true }).successResetDeadline
      = some 100500 := by
  have h := (drawer_C9_success_reset
      { initBase 100000 with registrationSuccess := true } 0).1 rfl rfl rfl
  simpa using h

/-! ## Claim C6 -/

/-- C6: intent detection runs only when the chat status is ready or
error; it is skipped entirely when the cooldown is active or the drawer
is open; it depends only on the most recent message and does nothing
unless the role of that message is "user"; it lower-cases the content and
tests substring containment against the fixed keyword set; and on a
match with the drawer closed and no cooldown (the assistant being idle
because the status is ready or error) it calls `open(automatic)`. -/
theorem chat_C6_intent (s : Sys) (msgs : List Message) :
    ((s.chatStatus = ChatStatus.streaming ∨ s.chatStatus = ChatStatus.submitted) →
      intentEffect msgs s = s) ∧
    ((s.cooldown = true ∨ s.isOpen = true) → checkForRegistrationIntent msgs s = s) ∧
    (∀ msgs2, msgs.getLast? = msgs2.getLast? →
      checkForRegistrationIntent msgs s = checkForRegistrationIntent msgs2 s) ∧
    (∀ m, msgs.getLast? = some m → m.role ≠ "user" →
      checkForRegistrationIntent msgs s = s) ∧
    (∀ m, msgs.getLast? = some m → m.role = "user" → hasIntent m.content = false →
      checkForRegistrationIntent msgs s = s) ∧
    (∀ m, s.cooldown = false → s.isOpen = false →
      (s.chatStatus = ChatStatus.ready ∨ s.chatStatus = ChatStatus.error) →
      msgs.getLast? = some m → m.role = "user" → hasIntent m.content = true →
      intentEffect msgs s = openDrawer true s) := by
  refine ⟨?_, ?_, ?_, ?_, ?_, ?_⟩
  · rintro (h | h) <;> simp [intentEffect, h]
  · rintro (h | h) <;> simp [checkForRegistrationIntent, h]
  · intro msgs2 h
    unfold checkForRegistrationIntent
    rw [h]
  · intro m hm hrole
    unfold checkForRegistrationIntent
    rw [hm]
    split <;> simp [hrole]
  · intro m hm hrole hint
    unfold checkForRegistrationIntent
    rw [hm]
    split <;> simp [hrole, hint]
  · intro m hcool hopen hstatus hm hrole hint
    have hb : isAIWriting s = false := by
      rcases hstatus with h | h <;> simp [isAIWriting, h]
    rcases hstatus with h | h <;>
      · unfold intentEffect checkForRegistrationIntent
        rw [hm]
        simp [h, hcool, hopen, hrole, hint, hb]

/-- Witness for C6: the scenario of the specification.  The last user
message reads I would like to sign up (matching the keyword sign up),
status is ready, the drawer is closed and no cooldown is active, so the
check opens the drawer with automatic origin. -/
theorem chat_C6_intent_witness :
    intentEffect [{ role := "user", content := "I\x27d like to sign up" }] (initBase 100000)
      = openDrawer true (initBase 100000) ∧
    (intentEffect [{ role := "user", content := "I\x27d like to sign up" }]
      (initBase 100000)).isOpen = true ∧
    (intentEffect [{ role := "user", content := "I\x27d like to sign up" }]
      (initBase 100000)).isAutomaticOpen = true := by
  have h := (chat_C6_intent (initBase 100000)
      [{ role := "user", content := "I\x27d like to sign up" }]).2.2.2.2.2
      { role := "user", content := "I\x27d like to sign up" }
      rfl rfl (Or.inl rfl) rfl rfl (by decide)
  exact ⟨h, by rw [h]; decide, by rw [h]; decide⟩

/-! ## Claim C7 -/

/-- C7: when waiting for an email, the submitted input matches the email
pattern and the persist call succeeds, the submission sets
`registrationSuccess`, closes the drawer, clears the waiting flag and
the text field, begins the cooldown, and does not send the text as a
chat message. -/
theorem chat_C7_email_success (s : Sys)
    (hwait : s.isWaitingForEmail = true) (hv : matchesEmailRegex s.input = true) :
    (step s (Event.eEmailSubmit true)).registrationSuccess = true ∧
    (step s (Event.eEmailSubmit true)).isOpen = false ∧
    (step s (Event.eEmailSubmit true)).isWaitingForEmail = false ∧
    (step s (Event.eEmailSubmit true)).input = "" ∧
    (step s (Event.eEmailSubmit true)).cooldown = true ∧
    (step s (Event.eEmailSubmit true)).sentMessages = s.sentMessages := by
  have hE : handleEmailSubmit true s =
      { s with registrationSuccess := true, lastCloseTime := s.now, isOpen := false,
               isAutomaticOpen := false, isWaitingForEmail := false,
               reassertDeadline := some (s.now + 50), input := "", cooldown := true,
               cooldownDeadlines := s.cooldownDeadlines ++ [s.now + 10000] } := by
    unfold handleEmailSubmit closeDrawer
    simp [hwait, hv]
  have hstep : step s (Event.eEmailSubmit true) = postRender s (handleEmailSubmit true s) := rfl
  refine ⟨?_, ?_, ?_, ?_, ?_, ?_⟩ <;> rw [hstep, hE]
  · simp
  · simp
  · simp
  · simp
  · exact postRender_cooldown_of_true _ _ rfl
  · simp

/-- Concrete open-drawer state waiting for an email with the given
input text, used by the submission witnesses. -/
def emailWaitState (text : String) : Sys :=
  { initBase 100000 with isOpen := true, isWaitingForEmail := true, input := text }

/-- Witness for C7: the scenario of the specification with the concrete
email "a@b.co". -/
theorem chat_C7_email_success_witness :
    matchesEmailRegex "a@b.co" = true ∧
    (step (emailWaitState "a@b.co") (Event.eEmailSubmit true)).registrationSuccess = true ∧
    (step (emailWaitState "a@b.co") (Event.eEmailSubmit true)).isOpen = false ∧
    (step (emailWaitState "a@b.co") (Event.eEmailSubmit true)).isWaitingForEmail = false ∧
    (step (emailWaitState "a@b.co") (Event.eEmailSubmit true)).input = "" := by
  have h := chat_C7_email_success (emailWaitState "a@b.co") rfl (by decide)
  exact ⟨by decide, h.1, h.2.1, h.2.2.1, h.2.2.2.1⟩

/-! ## Claim C8 -/

/-- C8: when waiting for an email and either the text does not match the
email pattern or the persist call fails, the submission falls through
to the normal chat submission path: the text is sent as a chat message
and no drawer state changes — `isWaitingForEmail` stays true and
`registrationSuccess`, `isOpen` and the cooldown are unchanged. -/
theorem chat_C8_email_fallthrough (s : Sys) (ok : Bool)
    (hwait : s.isWaitingForEmail = true)
    (h : matchesEmailRegex s.input = false ∨ ok = false) :
    handleEmailSubmit ok s = handleSubmit s ∧
    (step s (Event.eEmailSubmit ok)).isWaitingForEmail = true ∧
    (step s (Event.eEmailSubmit ok)).registrationSuccess = s.registrationSuccess ∧
    (step s (Event.eEmailSubmit ok)).isOpen = s.isOpen ∧
    (step s (Event.eEmailSubmit ok)).cooldown = s.cooldown ∧
    (step s (Event.eEmailSubmit ok)).sentMessages = s.sentMessages ++ [s.input] := by
  have hE : handleEmailSubmit ok s = handleSubmit s := by
    unfold handleEmailSubmit
    rcases h with h | h <;> simp [hwait, h]
  have hstep : step s (Event.eEmailSubmit ok) = postRender s (handleEmailSubmit ok s) := rfl
  have hcool : (step s (Event.eEmailSubmit ok)).cooldown = s.cooldown := by
    rw [hstep, hE]
    rw [postRender_cooldown_same s (handleSubmit s) (by simp [handleSubmit])]
    simp [handleSubmit]
  refine ⟨hE, ?_, ?_, ?_, hcool, ?_⟩ <;> rw [hstep, hE] <;> simp [handleSubmit, hwait]

/-- Witness for C8: the scenario of the specification with the concrete
non-email text "not-an-email". -/
theorem chat_C8_email_fallthrough_witness :
    matchesEmailRegex "not-an-email" = false ∧
    (step (emailWaitState "not-an-email") (Event.eEmailSubmit true)).isWaitingForEmail = true ∧
    (step (emailWaitState "not-an-email") (Event.eEmailSubmit true)).sentMessages
      = ["not-an-email"] := by
  have h := chat_C8_email_fallthrough (emailWaitState "not-an-email") true rfl
      (Or.inl (by decide))
  refine ⟨by decide, h.2.1, ?_⟩
  rw [h.2.2.2.2.2]
  decide

/-! ## Claim C1 -/

/-- Events that are open, close or toggle calls on the store, or the
mere passage of time between them. -/
def isDrawerOp : Event → Bool
  | Event.eOpen _ => true
  | Event.eClose => true
  | Event.eToggle => true
  | Event.eTick _ => true
  | _ => false

lemma step_drawerOp_regSuccess (s : Sys) (e : Event) (he : isDrawerOp e = true)
    (hs : s.registrationSuccess = false) : (step s e).registrationSuccess = false := by
  cases e with
  | eOpen a => simpa [step] using hs
  | eClose => simpa [step, closeDrawer] using hs
  | eToggle => simpa [step] using hs
  | eTick dt =>
      show (tick dt s).registrationSuccess = false
      unfold tick
      have h1 : (fireAutoClose
          (fireCooldowns { s with now := s.now + dt })).registrationSuccess = false := by
        simp [hs]
      have h2 := fireSuccessReset_regSuccess_false _ h1
      simp only [fireReassert_fields]
      exact h2
  | eSafeToggle => simp [isDrawerOp] at he
  | eSetWaiting v => simp [isDrawerOp] at he
  | eSetSuccess v => simp [isDrawerOp] at he
  | eSetStatus st => simp [isDrawerOp] at he
  | eSetInput t => simp [isDrawerOp] at he
  | eIntent msgs => simp [isDrawerOp] at he
  | eEmailSubmit ok => simp [isDrawerOp] at he

lemma run_drawerOps_regSuccess (es : List Event) (s : Sys)
    (hs : s.registrationSuccess = false) (h : es.all isDrawerOp = true) :
    (es.foldl step s).registrationSuccess = false := by
  induction es generalizing s with
  | nil => simpa using hs
  | cons e es ih =>
      rw [List.all_cons, Bool.and_eq_true] at h
      exact ih (step s e) (step_drawerOp_regSuccess s e h.1 hs) h.2

/-- C1: for every sequence of open, close and toggle operations (with
arbitrary time passing between them) starting from the mounted initial
state, `isWaitingForEmail` and `registrationSuccess` are never
simultaneously true: none of these operations ever sets
`registrationSuccess`, so it stays false throughout. -/
theorem drawer_C1_mutual_exclusion (t0 : Nat) (es : List Event)
    (h : es.all isDrawerOp = true) :
    ¬((run t0 es).isWaitingForEmail = true ∧ (run t0 es).registrationSuccess = true) := by
  have key : (run t0 es).registrationSuccess = false :=
    run_drawerOps_regSuccess es (init t0) (by simp [init, initBase, syncEffects]) h
  simp [key]

/-- Witness for C1: a concrete open/toggle/close sequence. -/
theorem drawer_C1_mutual_exclusion_witness :
    ¬((run 100000 [Event.eOpen true, Event.eToggle, Event.eTick 3000,
        Event.eClose]).isWaitingForEmail = true ∧
      (run 100000 [Event.eOpen true, Event.eToggle, Event.eTick 3000,
        Event.eClose]).registrationSuccess = true) :=
  drawer_C1_mutual_exclusion 100000
    [Event.eOpen true, Event.eToggle, Event.eTick 3000, Event.eClose] (by decide)

/-! ## Claim C10 -/

/-- Cooldown invariant of every reachable state: time has not gone
backwards past the mount time, every pending cooldown timeout is at
least 10 s after the mount, and the cooldown flag can only be false
once 10 s have passed since the mount. -/
def CooldownInv (t0 : Nat) (s : Sys) : Prop :=
  t0 ≤ s.now ∧
  (∀ d ∈ s.cooldownDeadlines, t0 + 10000 ≤ d) ∧
  (s.cooldown = false → t0 + 10000 ≤ s.now)

lemma cooldownInv_of_fields (t0 : Nat) (s s2 : Sys) (hn : s2.now = s.now)
    (hc : s2.cooldown = s.cooldown) (hd : s2.cooldownDeadlines = s.cooldownDeadlines)
    (h : CooldownInv t0 s) : CooldownInv t0 s2 := by
  unfold CooldownInv at h ⊢
  rw [hn, hc, hd]
  exact h

lemma cooldownInv_armCooldown (t0 : Nat) (s : Sys) (h : CooldownInv t0 s) :
    CooldownInv t0 (armCooldown s) := by
  obtain ⟨h1, h2, h3⟩ := h
  refine ⟨by simpa using h1, ?_, by simp⟩
  intro d hd
  simp only [armCooldown, List.mem_append, List.mem_singleton] at hd
  rcases hd with hd | hd
  · exact h2 d hd
  · omega

lemma cooldownInv_postRender (t0 : Nat) (old s : Sys) (h : CooldownInv t0 s) :
    CooldownInv t0 (postRender old s) := by
  have hsync : CooldownInv t0 (syncEffects s) :=
    cooldownInv_of_fields t0 s _ (by simp [syncEffects]) (by simp [syncEffects])
      (by simp [syncEffects]) h
  unfold postRender
  split
  · exact cooldownInv_armCooldown t0 _ hsync
  · exact hsync

lemma cooldownInv_fireCooldowns (t0 : Nat) (s : Sys) (h : CooldownInv t0 s) :
    CooldownInv t0 (fireCooldowns s) := by
  obtain ⟨h1, h2, h3⟩ := h
  unfold fireCooldowns
  split
  next hc =>
    refine ⟨h1, ?_, ?_⟩
    · intro d hd
      rw [List.mem_filter] at hd
      exact h2 d hd.1
    · intro _
      rw [List.any_eq_true] at hc
      obtain ⟨d, hdl, hdle⟩ := hc
      rw [decide_eq_true_eq] at hdle
      have := h2 d hdl
      show t0 + 10000 ≤ s.now
      omega
  next hc => exact ⟨h1, h2, h3⟩

lemma cooldownInv_fireAutoClose (t0 : Nat) (s : Sys) (h : CooldownInv t0 s) :
    CooldownInv t0 (fireAutoClose s) := by
  unfold fireAutoClose
  split
  · split
    · exact cooldownInv_postRender t0 _ _ (cooldownInv_of_fields t0 s _ rfl rfl rfl h)
    · exact h
  · exact h

lemma cooldownInv_fireSuccessReset (t0 : Nat) (s : Sys) (h : CooldownInv t0 s) :
    CooldownInv t0 (fireSuccessReset s) := by
  unfold fireSuccessReset
  split
  · split
    · exact cooldownInv_postRender t0 _ _ (cooldownInv_of_fields t0 s _ rfl rfl rfl h)
    · exact h
  · exact h

lemma cooldownInv_fireReassert (t0 : Nat) (s : Sys) (h : CooldownInv t0 s) :
    CooldownInv t0 (fireReassert s) := by
  unfold fireReassert
  split
  · split
    · exact cooldownInv_postRender t0 _ _ (cooldownInv_of_fields t0 s _ rfl rfl rfl h)
    · exact h
  · exact h

lemma cooldownInv_tick (t0 dt : Nat) (s : Sys) (h : CooldownInv t0 s) :
    CooldownInv t0 (tick dt s) := by
  obtain ⟨h1, h2, h3⟩ := h
  unfold tick
  apply cooldownInv_fireReassert
  apply cooldownInv_fireSuccessReset
  apply cooldownInv_fireAutoClose
  apply cooldownInv_fireCooldowns
  refine ⟨?_, h2, ?_⟩
  · show t0 ≤ s.now + dt
    omega
  · intro hc
    show t0 + 10000 ≤ s.now + dt
    have := h3 hc
    omega

lemma cooldownInv_safeToggleDrawer (t0 : Nat) (s : Sys) (h : CooldownInv t0 s) :
    CooldownInv t0 (safeToggleDrawer s) := by
  obtain ⟨h1, h2, h3⟩ := h
  unfold safeToggleDrawer
  split_ifs with hb ho
  · refine ⟨by simpa using h1, ?_, by simp⟩
    intro d hd
    simp only [toggleDrawer_fields, List.mem_append, List.mem_singleton] at hd
    rcases hd with hd | hd
    · exact h2 d hd
    · omega
  · exact cooldownInv_of_fields t0 s _ (by simp) (by simp) (by simp) ⟨h1, h2, h3⟩
  · exact ⟨h1, h2, h3⟩

lemma cooldownInv_handleEmailSubmit (t0 : Nat) (ok : Bool) (s : Sys)
    (h : CooldownInv t0 s) : CooldownInv t0 (handleEmailSubmit ok s) := by
  obtain ⟨h1, h2, h3⟩ := h
  unfold handleEmailSubmit closeDrawer handleSubmit
  split_ifs with hw hv hok
  · refine ⟨h1, ?_, by simp⟩
    intro d hd
    simp only [List.mem_append, List.mem_singleton] at hd
    rcases hd with hd | hd
    · exact h2 d hd
    · omega
  · exact ⟨h1, h2, h3⟩
  · exact ⟨h1, h2, h3⟩
  · exact ⟨h1, h2, h3⟩

lemma cooldownInv_step (t0 : Nat) (s : Sys) (e : Event) (h : CooldownInv t0 s) :
    CooldownInv t0 (step s e) := by
  cases e with
  | eOpen a =>
      exact cooldownInv_postRender t0 s _
        (cooldownInv_of_fields t0 s _ (by simp) (by simp) (by simp) h)
  | eClose =>
      exact cooldownInv_postRender t0 s _
        (cooldownInv_of_fields t0 s _ (by simp [closeDrawer]) (by simp [closeDrawer])
          (by simp [closeDrawer]) h)
  | eToggle =>
      exact cooldownInv_postRender t0 s _
        (cooldownInv_of_fields t0 s _ (by simp) (by simp) (by simp) h)
  | eSafeToggle =>
      exact cooldownInv_postRender t0 s _ (cooldownInv_safeToggleDrawer t0 s h)
  | eSetWaiting v =>
      exact cooldownInv_postRender t0 s _ (cooldownInv_of_fields t0 s _ rfl rfl rfl h)
  | eSetSuccess v =>
      exact cooldownInv_postRender t0 s _ (cooldownInv_of_fields t0 s _ rfl rfl rfl h)
  | eSetStatus st =>
      exact cooldownInv_postRender t0 s _ (cooldownInv_of_fields t0 s _ rfl rfl rfl h)
  | eSetInput t =>
      exact cooldownInv_of_fields t0 s _ rfl rfl rfl h
  | eIntent msgs =>
      exact cooldownInv_postRender t0 s _
        (cooldownInv_of_fields t0 s _ (by simp) (by simp) (by simp) h)
  | eEmailSubmit ok =>
      exact cooldownInv_postRender t0 s _ (cooldownInv_handleEmailSubmit t0 ok s h)
  | eTick dt => exact cooldownInv_tick t0 dt s h

lemma cooldownInv_init (t0 : Nat) : CooldownInv t0 (init t0) := by
  refine ⟨by simp [init, initBase, syncEffects], ?_, by simp [init]⟩
  intro d hd
  simp [init, armCooldown, syncEffects, initBase] at hd
  omega

lemma cooldownInv_run (t0 : Nat) (es : List Event) : CooldownInv t0 (run t0 es) := by
  have key : ∀ s, CooldownInv t0 s → CooldownInv t0 (es.foldl step s) := by
    induction es with
    | nil => exact fun s h => h
    | cons e es ih => exact fun s h => ih _ (cooldownInv_step t0 s e h)
  exact key (init t0) (cooldownInv_init t0)

/-- C10: the cooldown flag of the controller is armed at mount (where
`isOpen` starts false), on every transition of `isOpen` to false, on a
manual toggle that opens the drawer, and on a successful email
submission; while the flag is set, intent detection is a no-op; and in
every run from the mounted initial state, no automatic open can happen
while less than 10 s have passed since the mount, because the flag is
still set. -/
theorem chat_C10_cooldown (t0 : Nat) (es : List Event) (msgs : List Message) :
    ((init t0).cooldown = true) ∧
    (∀ old s : Sys, old.isOpen = true → (syncEffects s).isOpen = false →
      (postRender old s).cooldown = true) ∧
    (∀ s : Sys, isAIWriting s = false → s.isOpen = false →
      (safeToggleDrawer s).cooldown = true) ∧
    (∀ s : Sys, s.isWaitingForEmail = true → matchesEmailRegex s.input = true →
      (handleEmailSubmit true s).cooldown = true) ∧
    (∀ s : Sys, s.cooldown = true → checkForRegistrationIntent msgs s = s) ∧
    ((run t0 es).now < t0 + 10000 →
      (run t0 es).cooldown = true ∧
      checkForRegistrationIntent msgs (run t0 es) = run t0 es) := by
  have hskip : ∀ s : Sys, s.cooldown = true → checkForRegistrationIntent msgs s = s := by
    intro s hc
    unfold checkForRegistrationIntent
    simp [hc]
  refine ⟨by simp [init], ?_, ?_, ?_, hskip, ?_⟩
  · intro old s hold hs
    unfold postRender
    simp [hold, hs]
  · intro s hb ho
    simp [safeToggleDrawer, hb, ho]
  · intro s hw hv
    unfold handleEmailSubmit
    simp [hw, hv]
  · intro hlt
    have hinv := (cooldownInv_run t0 es).2.2
    have hcool : (run t0 es).cooldown = true := by
      rcases hcb : (run t0 es).cooldown with _ | _
      · exact absurd (hinv hcb) (by omega)
      · rfl
    exact ⟨hcool, hskip _ hcool⟩

/-- Witness for C10: 9999 ms after mounting, the cooldown is still set
and intent detection does nothing. -/
theorem chat_C10_cooldown_witness :
    (run 0 [Event.eTick 9999]).cooldown = true ∧
    checkForRegistrationIntent [] (run 0 [Event.eTick 9999]) = run 0 [Event.eTick 9999] :=
  (chat_C10_cooldown 0 [Event.eTick 9999] []).2.2.2.2.2 (by decide)
